import Mathlib

/-!
Verification of the Malheur command-line driver (src/malheur.c).

The driver parses command-line options (the `getopt` loop of
`parse_options`), selects one of three analysis tasks (`kernel`,
`prototype`, `cluster`), checks per-task output requirements, loads the
configuration, optionally initializes the process-wide feature lookup
table, dispatches the task, and tears down.

The shallow embedding below mirrors the driver faithfully:
  * `Opt` is the stream of options as libc `getopt` hands them to the
    `while` loop (one constructor per `case` of the `switch`, including
    the `'?'` result for an unrecognized option character);
  * `Globals` holds the file-static variables mutated by the loop;
  * external collaborators (filesystem `access`, libconfig, the feature
    array / prototype / export modules) are modelled by an `Env` of
    oracles plus a trace of `Event`s recording every call the driver
    makes into them, in program order;
  * `fatal` (which prints and aborts) and `exit(EXIT_SUCCESS)` are the
    `Outcome.fatalError` and `Outcome.exited` outcomes.
-/

namespace Malheur

/-- The three analysis tasks (`malheur_task_t` in malheur.h). -/
inductive MalheurTask
  | PROTOTYPE
  | KERNEL
  | CLUSTER
deriving DecidableEq, Repr

/-- One option as delivered by `getopt(argc, argv, "l:s:tr:c:hvV")` to the
option loop of `parse_options`: one constructor per `case` label, with the
`optarg` payload for options taking an argument; `unknown` is getopt's
`'?'` result for an unrecognized option character. -/
inductive Opt
  | v
  | c (optarg : String)
  | r (optarg : String)
  | l (optarg : String)
  | s (optarg : String)
  | t
  | V
  | h
  | unknown
deriving DecidableEq, Repr

/-- `EXIT_SUCCESS` of stdlib.h. -/
def EXIT_SUCCESS : Nat := 0

/-- The file-static variables of malheur.c mutated by `parse_options`
(`verbose`, `config_file`, `result_file`, `proto_file`, `lookup_table`). -/
structure Globals where
  verbose : Nat
  config_file : String
  result_file : Option String
  proto_file : Option String
  lookup_table : Bool
deriving DecidableEq, Repr

/-- The default configuration file name (the `CONFIG_FILE` macro of
malheur.h; its exact text is irrelevant to the driver's control flow). -/
def CONFIG_FILE : String := "malheur.cfg"

/-- Initial values of the static variables (lines 29-34 of malheur.c):
`verbose = 0`, `config_file = CONFIG_FILE`, `result_file = NULL`,
`proto_file = NULL`, `lookup_table = FALSE`. -/
def initGlobals : Globals :=
  { verbose := 0
    config_file := CONFIG_FILE
    result_file := none
    proto_file := none
    lookup_table := false }

/-- A call the driver makes into an external collaborator (or a message it
prints), recorded in program order. -/
inductive Event
  | PrintVersion
  | PrintUsage
  | AccessInput (file : String)
  | WarningMsg (msg : String)
  | ConfigInit
  | ConfigRead (file : String)
  | ConfigCheck
  | ConfigPrint
  | FtableInit
  | FtableDestroy
  | ConfigDestroy
  | FarrayExtract (file : String)
  | ProtoExtract
  | ProtoPrint
  | ExportProto (file : String)
  | ProtoSave (file : String)
  | ProtoDestroy
  | MallocMatrix (bytes : Nat)
  | FarrayDot
  | ExportKernel (file : Option String)
  | FreeMatrix
  | FarrayDestroy
deriving DecidableEq, Repr

/-- Oracles for the external collaborators the driver calls: whether
`access(file, R_OK)` succeeds, whether `config_read_file` returns
`CONFIG_TRUE`, whether the external `config_check` aborts the run, the
length `fa->len` of the feature array extracted from an input, and
whether `malloc` of a given byte count succeeds. -/
structure Env where
  readable : String → Bool
  configRead : String → Bool
  configCheckFatal : Bool
  faLen : String → Nat
  mallocOk : Nat → Bool

/-- Result of the `getopt` loop: either the loop ran off the end of the
options (carrying the updated statics), or the process called `exit`
inside the loop (cases `'V'`, `'h'`, `'?'`), carrying the exit code and
the message printed. -/
inductive LoopResult
  | done (g : Globals)
  | exited (code : Nat) (ev : Event)
deriving DecidableEq, Repr

/-- The `while (getopt(...))` loop of `parse_options` (lines 77-105):
each option mutates the statics; `-V` prints the version and exits with
`EXIT_SUCCESS`; `-h` and an unrecognized option print the usage screen
and exit with `EXIT_SUCCESS`. -/
def getoptLoop : List Opt → Globals → LoopResult
  | [], g => LoopResult.done g
  | o :: rest, g =>
    match o with
    | Opt.v => getoptLoop rest { g with verbose := g.verbose + 1 }
    | Opt.c f => getoptLoop rest { g with config_file := f }
    | Opt.r f => getoptLoop rest { g with result_file := some f }
    | Opt.l f => getoptLoop rest { g with proto_file := some f }
    | Opt.s f => getoptLoop rest { g with proto_file := some f }
    | Opt.t => getoptLoop rest { g with lookup_table := true }
    | Opt.V => LoopResult.exited EXIT_SUCCESS Event.PrintVersion
    | Opt.h => LoopResult.exited EXIT_SUCCESS Event.PrintUsage
    | Opt.unknown => LoopResult.exited EXIT_SUCCESS Event.PrintUsage

/-- `strcasecmp(a, b) == 0`: case-insensitive string equality, character by
character (each character taken through `tolower`). -/
def strcaseEq (a b : String) : Bool :=
  a.data.map Char.toLower == b.data.map Char.toLower

/-- The task-selection chain of `parse_options` (lines 114-121): the three
`strcasecmp` tests in source order; `none` is the `fatal` branch. -/
def taskOf (s : String) : Option MalheurTask :=
  if strcaseEq s "prototype" then some MalheurTask.PROTOTYPE
  else if strcaseEq s "kernel" then some MalheurTask.KERNEL
  else if strcaseEq s "cluster" then some MalheurTask.CLUSTER
  else none

/-- What `parse_options` hands to the rest of the program on success: the
statics, the selected task and the input file. -/
structure ParsedOptions where
  g : Globals
  task : MalheurTask
  input_file : String
deriving DecidableEq, Repr

/-- Outcome of `parse_options` (and of `malheur_init`, which extends it):
`exit()` called during the option loop, `fatal()` called, or success. -/
inductive ParseResult
  | exited (code : Nat)
  | fatal (msg : String)
  | ok (po : ParsedOptions)
deriving DecidableEq, Repr

/-- The post-parse sanity checks of `parse_options` (lines 129-142):
per-task output requirements. Returns the `fatal` message if one fires,
and the `warning` events emitted. -/
def sanityChecks (task : MalheurTask) (g : Globals) :
    Option String × List Event :=
  match task with
  | MalheurTask.PROTOTYPE =>
    if g.proto_file.isNone && g.result_file.isNone then
      (some "No output specified. See options '-s' and/or '-r'", [])
    else (none, [])
  | MalheurTask.KERNEL =>
    if g.result_file.isNone then
      (some "No output specified. See option '-r'", [])
    else if g.proto_file.isSome then
      (none, [Event.WarningMsg "Prototypes will not be extracted in this task"])
    else (none, [])
  | MalheurTask.CLUSTER => (none, [])

/-- `parse_options` (lines 74-143): the option loop, the check that exactly
two positional arguments remain, task selection, the `access` check on the
input file, and the per-task sanity checks. -/
def parse_options (env : Env) (opts : List Opt) (args : List String) :
    ParseResult × List Event :=
  match getoptLoop opts initGlobals with
  | LoopResult.exited code ev => (ParseResult.exited code, [ev])
  | LoopResult.done g =>
    match args with
    | [taskArg, inputArg] =>
      match taskOf taskArg with
      | none =>
        (ParseResult.fatal
          ("Unknown analysis task '" ++ taskArg ++ "' for Malheur"), [])
      | some task =>
        if env.readable inputArg then
          match sanityChecks task g with
          | (some msg, evs) =>
            (ParseResult.fatal msg, Event.AccessInput inputArg :: evs)
          | (none, evs) =>
            (ParseResult.ok ⟨g, task, inputArg⟩,
              Event.AccessInput inputArg :: evs)
        else
          (ParseResult.fatal ("Could not access '" ++ inputArg ++ "'"),
            [Event.AccessInput inputArg])
    | _ => (ParseResult.fatal "<task> and <input> arguments are required", [])

/-- `malheur_prototype` (lines 148-168): extract the feature array, extract
prototypes, optionally print them, export results if `-r` was given, save
prototype vectors if `-l`/`-s` was given, clean up. Never calls `fatal`
itself. -/
def malheur_prototype (g : Globals) (input_file : String) :
    Option String × List Event :=
  (none,
    [Event.FarrayExtract input_file, Event.ProtoExtract]
      ++ (if g.verbose > 1 then [Event.ProtoPrint] else [])
      ++ (match g.result_file with
          | some f => [Event.ExportProto f]
          | none => [])
      ++ (match g.proto_file with
          | some f => [Event.ProtoSave f]
          | none => [])
      ++ [Event.ProtoDestroy, Event.FarrayDestroy])

/-- `malheur_cluster` (lines 173-179): extract the feature array and
immediately destroy it. No similarity computation and no clustering
happens in this function. -/
def malheur_cluster (input_file : String) : Option String × List Event :=
  (none, [Event.FarrayExtract input_file, Event.FarrayDestroy])

/-- `malheur_kernel` (lines 184-201): extract the feature array, `malloc`
the `len * len * sizeof(double)` similarity matrix (fatal on failure, with
the fixed message), compute the dot products, export the kernel matrix to
`result_file`, clean up. -/
def malheur_kernel (env : Env) (g : Globals) (input_file : String) :
    Option String × List Event :=
  let n := env.faLen input_file
  let bytes := n * n * 8
  if env.mallocOk bytes then
    (none,
      [Event.FarrayExtract input_file, Event.MallocMatrix bytes,
        Event.FarrayDot, Event.ExportKernel g.result_file,
        Event.FreeMatrix, Event.FarrayDestroy])
  else
    (some "Could not allocate similarity matrix",
      [Event.FarrayExtract input_file, Event.MallocMatrix bytes])

/-- `malheur_init` (lines 208-227): parse the options, load and check the
configuration (fatal if `config_read_file` fails or `config_check`
aborts), print it when verbose, and initialize the feature lookup table
exactly when `-t` was given. -/
def malheur_init (env : Env) (opts : List Opt) (args : List String) :
    ParseResult × List Event :=
  match parse_options env opts args with
  | (ParseResult.exited code, evs) => (ParseResult.exited code, evs)
  | (ParseResult.fatal m, evs) => (ParseResult.fatal m, evs)
  | (ParseResult.ok po, evs) =>
    let evs := evs ++ [Event.ConfigInit, Event.ConfigRead po.g.config_file]
    if env.configRead po.g.config_file then
      let evs := evs ++ [Event.ConfigCheck]
      if env.configCheckFatal then
        (ParseResult.fatal "config_check failed", evs)
      else
        (ParseResult.ok po,
          evs ++ (if po.g.verbose > 1 then [Event.ConfigPrint] else [])
            ++ (if po.g.lookup_table then [Event.FtableInit] else []))
    else
      (ParseResult.fatal "Could not read configuration", evs)

/-- `malheur_exit` (lines 232-239): destroy the feature lookup table
exactly when `-t` was given, then destroy the configuration. -/
def malheur_exit (g : Globals) : List Event :=
  (if g.lookup_table then [Event.FtableDestroy] else [])
    ++ [Event.ConfigDestroy]

/-- How a run of the driver ends: `exit()` during option parsing,
`fatal()` anywhere, or `main` returning its exit code. -/
inductive Outcome
  | exited (code : Nat)
  | fatalError (msg : String)
  | finished (code : Nat)
deriving DecidableEq, Repr

/-- The task dispatch `switch` of `main` (lines 252-262). -/
def taskRun (env : Env) (po : ParsedOptions) : Option String × List Event :=
  match po.task with
  | MalheurTask.KERNEL => malheur_kernel env po.g po.input_file
  | MalheurTask.PROTOTYPE => malheur_prototype po.g po.input_file
  | MalheurTask.CLUSTER => malheur_cluster po.input_file

/-- `main` (lines 247-266): `malheur_init`, dispatch on the task,
`malheur_exit`, return `EXIT_SUCCESS`. The second component is the trace
of external calls in program order. -/
def malheur_main (env : Env) (opts : List Opt) (args : List String) :
    Outcome × List Event :=
  match malheur_init env opts args with
  | (ParseResult.exited code, evs) => (Outcome.exited code, evs)
  | (ParseResult.fatal m, evs) => (Outcome.fatalError m, evs)
  | (ParseResult.ok po, evs) =>
    match taskRun env po with
    | (some m, tevs) => (Outcome.fatalError m, evs ++ tevs)
    | (none, tevs) =>
      (Outcome.finished EXIT_SUCCESS, evs ++ tevs ++ malheur_exit po.g)

/-- Whether an event is a call into the computation over the input
collection (feature extraction, similarity computation, prototype
extraction, or exporting their results) as opposed to option parsing,
configuration handling or lookup-table lifecycle. -/
def isTaskEvent : Event → Bool
  | Event.FarrayExtract _ => true
  | Event.ProtoExtract => true
  | Event.ProtoPrint => true
  | Event.ExportProto _ => true
  | Event.ProtoSave _ => true
  | Event.ProtoDestroy => true
  | Event.MallocMatrix _ => true
  | Event.FarrayDot => true
  | Event.ExportKernel _ => true
  | Event.FreeMatrix => true
  | Event.FarrayDestroy => true
  | _ => false

/-- Whether a command line contains a `-r` option. -/
def hasR (opts : List Opt) : Bool :=
  opts.any fun o => match o with | Opt.r _ => true | _ => false

/-- Whether a command line contains a `-l` or `-s` option. -/
def hasSL (opts : List Opt) : Bool :=
  opts.any fun o =>
    match o with | Opt.l _ => true | Opt.s _ => true | _ => false

/-- Whether a command line contains a `-t` option. -/
def hasT (opts : List Opt) : Bool :=
  opts.any fun o => match o with | Opt.t => true | _ => false

/-- Whether an option makes the option loop print and exit:
`-V`, `-h`, or an unrecognized option character. -/
def isExitOpt : Opt → Bool
  | Opt.V => true
  | Opt.h => true
  | Opt.unknown => true
  | _ => false

/-- The last `-l`/`-s` argument of a command line, on top of a default:
what `proto_file` holds after the option loop. -/
def lastSL : List Opt → Option String → Option String
  | [], d => d
  | Opt.l f :: rest, _ => lastSL rest (some f)
  | Opt.s f :: rest, _ => lastSL rest (some f)
  | _ :: rest, d => lastSL rest d

/-- Rewriting every `-l file` of a command line into `-s file`. -/
def lToS : Opt → Opt
  | Opt.l f => Opt.s f
  | o => o

/-- Whether an event is a lookup-table lifecycle call. -/
def isFtEvent : Event → Bool
  | Event.FtableInit => true
  | Event.FtableDestroy => true
  | _ => false

/-- Whether an event is the lookup-table creation call. -/
def isFtInit : Event → Bool
  | Event.FtableInit => true
  | _ => false

/-- Whether an event is the lookup-table destruction call. -/
def isFtDestroy : Event → Bool
  | Event.FtableDestroy => true
  | _ => false

/-! ### Properties of the option loop -/

theorem getoptLoop_result_file (opts : List Opt) :
    ∀ (g0 g : Globals), getoptLoop opts g0 = LoopResult.done g →
      g.result_file.isSome = (g0.result_file.isSome || hasR opts) := by
  induction opts with
  | nil =>
    intro g0 g h
    simp only [getoptLoop] at h
    cases h
    simp [hasR]
  | cons o rest ih =>
    intro g0 g h
    cases o <;> simp only [getoptLoop] at h <;>
      first
        | (rw [ih _ _ h]; simp [hasR, List.any_cons])
        | cases h

theorem getoptLoop_proto_file (opts : List Opt) :
    ∀ (g0 g : Globals), getoptLoop opts g0 = LoopResult.done g →
      g.proto_file = lastSL opts g0.proto_file := by
  induction opts with
  | nil =>
    intro g0 g h
    simp only [getoptLoop] at h
    cases h
    simp [lastSL]
  | cons o rest ih =>
    intro g0 g h
    cases o <;> simp only [getoptLoop] at h <;>
      first
        | (rw [ih _ _ h]; simp [lastSL])
        | cases h

theorem lastSL_isSome (opts : List Opt) :
    ∀ d : Option String,
      (lastSL opts d).isSome = (d.isSome || hasSL opts) := by
  induction opts with
  | nil => intro d; simp [lastSL, hasSL]
  | cons o rest ih =>
    intro d
    cases o <;> simp [lastSL, hasSL, List.any_cons, ih]

theorem getoptLoop_lookup_table (opts : List Opt) :
    ∀ (g0 g : Globals), getoptLoop opts g0 = LoopResult.done g →
      g.lookup_table = (g0.lookup_table || hasT opts) := by
  induction opts with
  | nil =>
    intro g0 g h
    simp only [getoptLoop] at h
    cases h
    simp [hasT]
  | cons o rest ih =>
    intro g0 g h
    cases o <;> simp only [getoptLoop] at h <;>
      first
        | (rw [ih _ _ h]; simp [hasT, List.any_cons])
        | cases h

theorem getoptLoop_map_lToS (opts : List Opt) :
    ∀ g : Globals, getoptLoop (opts.map lToS) g = getoptLoop opts g := by
  induction opts with
  | nil => intro g; rfl
  | cons o rest ih =>
    intro g
    cases o <;> simp only [List.map, lToS, getoptLoop, ih]

theorem getoptLoop_exit (opts : List Opt) (hex : opts.any isExitOpt = true) :
    ∀ g : Globals,
      getoptLoop opts g = LoopResult.exited EXIT_SUCCESS Event.PrintVersion ∨
      getoptLoop opts g = LoopResult.exited EXIT_SUCCESS Event.PrintUsage := by
  induction opts with
  | nil => simp at hex
  | cons o rest ih =>
    intro g
    cases o <;> simp only [List.any_cons, isExitOpt] at hex <;>
      simp only [getoptLoop] <;>
      first
        | exact ih hex _
        | simp

theorem getoptLoop_exited_print (opts : List Opt) :
    ∀ (g : Globals) (code : Nat) (ev : Event),
      getoptLoop opts g = LoopResult.exited code ev →
      code = EXIT_SUCCESS ∧
        (ev = Event.PrintVersion ∨ ev = Event.PrintUsage) := by
  induction opts with
  | nil =>
    intro g code ev h
    simp only [getoptLoop] at h
    cases h
  | cons o rest ih =>
    intro g code ev h
    cases o <;> simp only [getoptLoop] at h <;>
      first
        | exact ih _ _ _ h
        | (cases h; simp)

/-! ### Properties of `parse_options` and `malheur_init` traces -/

theorem sanity_events_plain (task : MalheurTask) (g : Globals) :
    ((sanityChecks task g).2.all
      fun e => !(isTaskEvent e) && !(isFtEvent e)) = true := by
  cases task <;> simp only [sanityChecks] <;> (repeat' split) <;>
    simp [isTaskEvent, isFtEvent]

theorem parse_events_plain (env : Env) (opts : List Opt) (args : List String) :
    ((parse_options env opts args).2.all
      fun e => !(isTaskEvent e) && !(isFtEvent e)) = true := by
  unfold parse_options
  split
  case _ code ev hloop =>
    obtain ⟨-, hev | hev⟩ := getoptLoop_exited_print opts _ _ _ hloop <;>
      subst hev <;> simp [isTaskEvent, isFtEvent]
  case _ g hloop =>
    split
    case _ taskArg inputArg =>
      split
      case _ => simp
      case _ task htask =>
        split
        case _ hread =>
          split
          case _ msg evs hsan =>
            have hs := sanity_events_plain task g
            rw [hsan] at hs
            simpa [isTaskEvent, isFtEvent] using hs
          case _ evs hsan =>
            have hs := sanity_events_plain task g
            rw [hsan] at hs
            simpa [isTaskEvent, isFtEvent] using hs
        case _ => simp [isTaskEvent, isFtEvent]
    case _ => simp

theorem all_weaken {l : List Event} {p q : Event → Bool}
    (h : (l.all fun e => p e && q e) = true) :
    (l.all p) = true ∧ (l.all q) = true := by
  simp only [List.all_eq_true, Bool.and_eq_true] at h ⊢
  exact ⟨fun e he => (h e he).1, fun e he => (h e he).2⟩

theorem countP_zero_of_all_not {l : List Event} {p : Event → Bool}
    (h : (l.all fun e => !(p e)) = true) : l.countP p = 0 := by
  simp only [List.all_eq_true, Bool.not_eq_true'] at h
  simpa [List.countP_eq_zero] using h

theorem parse_ok_loop (env : Env) (opts : List Opt) (args : List String)
    (po : ParsedOptions) (evs : List Event)
    (h : parse_options env opts args = (ParseResult.ok po, evs)) :
    getoptLoop opts initGlobals = LoopResult.done po.g := by
  unfold parse_options at h
  split at h
  case _ code ev hloop => simp at h
  case _ g hloop =>
    split at h
    case _ taskArg inputArg =>
      split at h
      case _ => simp at h
      case _ task htask =>
        split at h
        case _ hread =>
          split at h
          case _ msg evs2 hsan => simp at h
          case _ evs2 hsan =>
            simp only [Prod.mk.injEq, ParseResult.ok.injEq] at h
            obtain ⟨hpo, -⟩ := h
            subst hpo
            exact hloop
        case _ => simp at h
    case _ => simp at h

theorem init_events_no_task (env : Env) (opts : List Opt)
    (args : List String) :
    ((malheur_init env opts args).2.all fun e => !(isTaskEvent e)) = true := by
  unfold malheur_init
  split
  case _ code evs heq =>
    have hp := parse_events_plain env opts args
    rw [heq] at hp
    exact (all_weaken hp).1
  case _ m evs heq =>
    have hp := parse_events_plain env opts args
    rw [heq] at hp
    exact (all_weaken hp).1
  case _ po evs heq =>
    have hp := parse_events_plain env opts args
    rw [heq] at hp
    have hp1 := (all_weaken hp).1
    (repeat' split) <;> simp_all [List.all_append, isTaskEvent]

theorem init_ft_counts (env : Env) (opts : List Opt) (args : List String) :
    ((malheur_init env opts args).2.countP isFtDestroy = 0) ∧
    ((malheur_init env opts args).2.countP isFtInit =
      match (malheur_init env opts args).1 with
      | ParseResult.ok po => if po.g.lookup_table then 1 else 0
      | _ => 0) := by
  unfold malheur_init
  split
  case _ code evs heq =>
    have hp := (all_weaken (parse_events_plain env opts args)).2
    rw [heq] at hp
    have h1 := countP_zero_of_all_not
      (l := evs) (p := isFtDestroy) (by
        simp only [List.all_eq_true] at hp ⊢
        intro e he
        have := hp e he
        cases e <;> simp_all [isFtEvent, isFtDestroy])
    have h2 := countP_zero_of_all_not
      (l := evs) (p := isFtInit) (by
        simp only [List.all_eq_true] at hp ⊢
        intro e he
        have := hp e he
        cases e <;> simp_all [isFtEvent, isFtInit])
    simp [h1, h2]
  case _ m evs heq =>
    have hp := (all_weaken (parse_events_plain env opts args)).2
    rw [heq] at hp
    have h1 := countP_zero_of_all_not
      (l := evs) (p := isFtDestroy) (by
        simp only [List.all_eq_true] at hp ⊢
        intro e he
        have := hp e he
        cases e <;> simp_all [isFtEvent, isFtDestroy])
    have h2 := countP_zero_of_all_not
      (l := evs) (p := isFtInit) (by
        simp only [List.all_eq_true] at hp ⊢
        intro e he
        have := hp e he
        cases e <;> simp_all [isFtEvent, isFtInit])
    simp [h1, h2]
  case _ po evs heq =>
    have hp := (all_weaken (parse_events_plain env opts args)).2
    rw [heq] at hp
    have h1 := countP_zero_of_all_not
      (l := evs) (p := isFtDestroy) (by
        simp only [List.all_eq_true] at hp ⊢
        intro e he
        have := hp e he
        cases e <;> simp_all [isFtEvent, isFtDestroy])
    have h2 := countP_zero_of_all_not
      (l := evs) (p := isFtInit) (by
        simp only [List.all_eq_true] at hp ⊢
        intro e he
        have := hp e he
        cases e <;> simp_all [isFtEvent, isFtInit])
    (repeat' split) <;>
      simp_all [List.countP_append, isFtInit, isFtDestroy, List.countP_cons]

theorem prototype_events_no_ft (g : Globals) (input : String) :
    ((malheur_prototype g input).2.all fun e => !(isFtEvent e)) = true := by
  simp only [malheur_prototype]
  (repeat' split) <;> simp [isFtEvent, List.all_append]

theorem cluster_events_no_ft (input : String) :
    ((malheur_cluster input).2.all fun e => !(isFtEvent e)) = true := by
  simp [malheur_cluster, isFtEvent]

theorem kernel_events_no_ft (env : Env) (g : Globals) (input : String) :
    ((malheur_kernel env g input).2.all fun e => !(isFtEvent e)) = true := by
  simp only [malheur_kernel]
  split <;> simp [isFtEvent]

theorem exit_ft_counts (g : Globals) :
    (malheur_exit g).countP isFtInit = 0 ∧
    (malheur_exit g).countP isFtDestroy =
      (if g.lookup_table then 1 else 0) ∧
    ((malheur_exit g).all fun e => !(isTaskEvent e)) = true := by
  simp only [malheur_exit]
  split <;> simp [isFtInit, isFtDestroy, isTaskEvent]

theorem taskRun_events_no_ft (env : Env) (po : ParsedOptions) :
    ((taskRun env po).2.all fun e => !(isFtEvent e)) = true := by
  rcases ht : po.task <;> simp only [taskRun, ht]
  · exact prototype_events_no_ft po.g po.input_file
  · exact kernel_events_no_ft env po.g po.input_file
  · exact cluster_events_no_ft po.input_file

theorem any_eq_false_of_all_not {l : List Event} {p : Event → Bool}
    (h : (l.all fun e => !(p e)) = true) : l.any p = false := by
  cases hany : l.any p
  · rfl
  · exfalso
    rw [List.any_eq_true] at hany
    obtain ⟨e, he, hp⟩ := hany
    simp only [List.all_eq_true, Bool.not_eq_true'] at h
    rw [h e he] at hp
    cases hp

theorem init_ok_parse (env : Env) (opts : List Opt) (args : List String)
    (po : ParsedOptions) (evs : List Event)
    (h : malheur_init env opts args = (ParseResult.ok po, evs)) :
    ∃ pevs, parse_options env opts args = (ParseResult.ok po, pevs) := by
  unfold malheur_init at h
  split at h
  case _ => simp at h
  case _ => simp at h
  case _ po' evs' heq =>
    refine ⟨evs', ?_⟩
    split at h
    case _ =>
      split at h
      case _ => simp at h
      case _ =>
        simp only [Prod.mk.injEq, ParseResult.ok.injEq] at h
        obtain ⟨hpo, -⟩ := h
        rw [heq, hpo]
    case _ => simp at h

theorem init_ok_lookup (env : Env) (opts : List Opt) (args : List String)
    (po : ParsedOptions) (evs : List Event)
    (h : malheur_init env opts args = (ParseResult.ok po, evs)) :
    po.g.lookup_table = hasT opts := by
  obtain ⟨pevs, hp⟩ := init_ok_parse env opts args po evs h
  have hloop := parse_ok_loop env opts args po pevs hp
  have := getoptLoop_lookup_table opts _ _ hloop
  simpa [initGlobals] using this

theorem parse_map_lToS (env : Env) (opts : List Opt) (args : List String) :
    parse_options env (opts.map lToS) args = parse_options env opts args := by
  unfold parse_options
  rw [getoptLoop_map_lToS]

theorem init_map_lToS (env : Env) (opts : List Opt) (args : List String) :
    malheur_init env (opts.map lToS) args = malheur_init env opts args := by
  unfold malheur_init
  rw [parse_map_lToS]

theorem strcaseEq_unique {s a b : String} (ha : strcaseEq s a = true)
    (hb : strcaseEq s b = true) :
    a.data.map Char.toLower = b.data.map Char.toLower := by
  simp only [strcaseEq, beq_iff_eq] at ha hb
  rw [← ha, ← hb]

/-! ### The claims -/

/-- C5: for every task-name argument string, task selection succeeds exactly
when the string case-insensitively equals one of "kernel", "prototype", or
"cluster" (mapping to the corresponding task), and `parse_options` fails
fatally with the unknown-task error for every other string. -/
theorem C5_task_selection (s : String) :
    (taskOf s = some MalheurTask.PROTOTYPE ↔ strcaseEq s "prototype" = true) ∧
    (taskOf s = some MalheurTask.KERNEL ↔ strcaseEq s "kernel" = true) ∧
    (taskOf s = some MalheurTask.CLUSTER ↔ strcaseEq s "cluster" = true) ∧
    (taskOf s = none ↔
      (strcaseEq s "prototype" = false ∧ strcaseEq s "kernel" = false ∧
        strcaseEq s "cluster" = false)) ∧
    (taskOf s = none →
      ∀ (env : Env) (opts : List Opt) (g : Globals) (inputArg : String),
        getoptLoop opts initGlobals = LoopResult.done g →
        (parse_options env opts [s, inputArg]).1 =
          ParseResult.fatal
            ("Unknown analysis task '" ++ s ++ "' for Malheur")) := by
  have hlast : taskOf s = none →
      ∀ (env : Env) (opts : List Opt) (g : Globals) (inputArg : String),
        getoptLoop opts initGlobals = LoopResult.done g →
        (parse_options env opts [s, inputArg]).1 =
          ParseResult.fatal
            ("Unknown analysis task '" ++ s ++ "' for Malheur") := by
    intro hn env opts g inputArg hl
    simp [parse_options, hl, hn]
  refine ⟨?_, ?_, ?_, ?_, hlast⟩ <;>
    cases h1 : strcaseEq s "prototype" <;>
    cases h2 : strcaseEq s "kernel" <;>
    cases h3 : strcaseEq s "cluster" <;>
    simp [taskOf, h1, h2, h3] <;>
    first
      | exact absurd (strcaseEq_unique h1 h2) (by decide)
      | exact absurd (strcaseEq_unique h1 h3) (by decide)
      | exact absurd (strcaseEq_unique h2 h3) (by decide)

/-- C5 witness: the uppercase spelling "KERNEL" selects the kernel task. -/
theorem C5_task_selection_witness :
    strcaseEq "KERNEL" "kernel" = true ∧
    taskOf "KERNEL" = some MalheurTask.KERNEL :=
  ⟨by decide, ((C5_task_selection "KERNEL").2.1).mpr (by decide)⟩

/-- C3: for a command line selecting the prototype task (option loop ran
through, task argument selects PROTOTYPE, input readable), parsing fails
fatally with the no-output error precisely when neither `-r` nor `-s`/`-l`
was given, and succeeds when at least one of them was given. -/
theorem C3_prototype_output_required (env : Env) (opts : List Opt)
    (g : Globals) (taskArg inputArg : String)
    (hl : getoptLoop opts initGlobals = LoopResult.done g)
    (ht : taskOf taskArg = some MalheurTask.PROTOTYPE)
    (hr : env.readable inputArg = true) :
    ((parse_options env opts [taskArg, inputArg]).1 =
        ParseResult.fatal "No output specified. See options '-s' and/or '-r'"
      ↔ (hasSL opts = false ∧ hasR opts = false)) ∧
    ((parse_options env opts [taskArg, inputArg]).1 =
        ParseResult.ok ⟨g, MalheurTask.PROTOTYPE, inputArg⟩
      ↔ (hasSL opts = true ∨ hasR opts = true)) := by
  have hpf : g.proto_file.isSome = hasSL opts := by
    rw [getoptLoop_proto_file opts _ _ hl, lastSL_isSome]
    simp [initGlobals]
  have hrf : g.result_file.isSome = hasR opts := by
    have := getoptLoop_result_file opts _ _ hl
    simpa [initGlobals] using this
  cases hsl : hasSL opts <;> cases hre : hasR opts <;>
    rw [hsl] at hpf <;> rw [hre] at hrf <;>
    simp [parse_options, hl, ht, hr, sanityChecks,
      Option.isNone_iff_eq_none, ← Option.not_isSome_iff_eq_none, hpf, hrf]

/-- C3 witness: with `-s protos` given (and no `-r`), parsing of the
prototype task succeeds. -/
theorem C3_prototype_output_required_witness :
    (parse_options
        (⟨fun _ => true, fun _ => true, false, fun _ => 0, fun _ => true⟩ :
          Env)
        [Opt.s "protos"] ["prototype", "reports"]).1 =
      ParseResult.ok
        ⟨{ initGlobals with proto_file := some "protos" },
          MalheurTask.PROTOTYPE, "reports"⟩ :=
  ((C3_prototype_output_required _ [Opt.s "protos"] _ "prototype" "reports"
      rfl (by decide) rfl).2).mpr (Or.inl rfl)

/-- C4: for a command line selecting the kernel task (option loop ran
through, task argument selects KERNEL, input readable), parsing fails
fatally with the no-output error precisely when no `-r` was given; with
`-r` given it succeeds, and if `-s`/`-l` was also given only a warning is
emitted; the kernel task itself never extracts or saves prototypes, and
when allocation succeeds it computes and exports the kernel matrix. -/
theorem C4_kernel_output_required (env : Env) (opts : List Opt)
    (g : Globals) (taskArg inputArg : String)
    (hl : getoptLoop opts initGlobals = LoopResult.done g)
    (ht : taskOf taskArg = some MalheurTask.KERNEL)
    (hr : env.readable inputArg = true) :
    ((parse_options env opts [taskArg, inputArg]).1 =
        ParseResult.fatal "No output specified. See option '-r'"
      ↔ hasR opts = false) ∧
    (hasR opts = true →
      (parse_options env opts [taskArg, inputArg]).1 =
        ParseResult.ok ⟨g, MalheurTask.KERNEL, inputArg⟩) ∧
    (hasR opts = true → hasSL opts = true →
      Event.WarningMsg "Prototypes will not be extracted in this task" ∈
        (parse_options env opts [taskArg, inputArg]).2) ∧
    (∀ e ∈ (malheur_kernel env g inputArg).2,
      e ≠ Event.ProtoExtract ∧ ∀ f, e ≠ Event.ProtoSave f) ∧
    (env.mallocOk (env.faLen inputArg * env.faLen inputArg * 8) = true →
      Event.FarrayDot ∈ (malheur_kernel env g inputArg).2 ∧
      Event.ExportKernel g.result_file ∈ (malheur_kernel env g inputArg).2) := by
  have hpf : g.proto_file.isSome = hasSL opts := by
    rw [getoptLoop_proto_file opts _ _ hl, lastSL_isSome]
    simp [initGlobals]
  have hrf : g.result_file.isSome = hasR opts := by
    have := getoptLoop_result_file opts _ _ hl
    simpa [initGlobals] using this
  refine ⟨?_, ?_, ?_, ?_, ?_⟩
  · cases hsl : hasSL opts <;> cases hre : hasR opts <;>
      rw [hsl] at hpf <;> rw [hre] at hrf <;>
      simp [parse_options, hl, ht, hr, sanityChecks,
        Option.isNone_iff_eq_none, ← Option.not_isSome_iff_eq_none, hpf, hrf]
  · intro hre
    cases hsl : hasSL opts <;>
      rw [hsl] at hpf <;> rw [hre] at hrf <;>
      simp [parse_options, hl, ht, hr, sanityChecks,
        Option.isNone_iff_eq_none, ← Option.not_isSome_iff_eq_none, hpf, hrf]
  · intro hre hsl
    rw [hsl] at hpf; rw [hre] at hrf
    simp [parse_options, hl, ht, hr, sanityChecks,
      Option.isNone_iff_eq_none, ← Option.not_isSome_iff_eq_none, hpf, hrf]
  · intro e he
    simp only [malheur_kernel] at he
    split at he <;> fin_cases he <;> exact ⟨by simp, by simp⟩
  · intro hm
    simp [malheur_kernel, hm]

/-- C4 witness: `-r out -s p` with the kernel task parses successfully. -/
theorem C4_kernel_output_required_witness :
    (parse_options
        (⟨fun _ => true, fun _ => true, false, fun _ => 0, fun _ => true⟩ :
          Env)
        [Opt.r "out", Opt.s "p"] ["kernel", "reports"]).1 =
      ParseResult.ok
        ⟨{ initGlobals with result_file := some "out", proto_file := some "p" },
          MalheurTask.KERNEL, "reports"⟩ :=
  (C4_kernel_output_required _ [Opt.r "out", Opt.s "p"] _ "kernel" "reports"
      rfl (by decide) rfl).2.1 rfl

/-- C8: for a command line selecting the cluster task (option loop ran
through, task argument selects CLUSTER, input readable), parsing always
succeeds: the post-parse sanity checks impose no output requirement for
the cluster task, whatever combination of -r, -s and -l was given. -/
theorem C8_cluster_no_requirements (env : Env) (opts : List Opt)
    (g : Globals) (taskArg inputArg : String)
    (hl : getoptLoop opts initGlobals = LoopResult.done g)
    (ht : taskOf taskArg = some MalheurTask.CLUSTER)
    (hr : env.readable inputArg = true) :
    (parse_options env opts [taskArg, inputArg]).1 =
      ParseResult.ok ⟨g, MalheurTask.CLUSTER, inputArg⟩ := by
  simp [parse_options, hl, ht, hr, sanityChecks]

/-- C8 witness: the cluster task parses successfully even with -r, -l and
-s all given. -/
theorem C8_cluster_no_requirements_witness :
    (parse_options
        (⟨fun _ => true, fun _ => true, false, fun _ => 0, fun _ => true⟩ :
          Env)
        [Opt.r "out", Opt.l "p1", Opt.s "p2"] ["cluster", "reports"]).1 =
      ParseResult.ok
        ⟨{ initGlobals with result_file := some "out", proto_file := some "p2" },
          MalheurTask.CLUSTER, "reports"⟩ :=
  C8_cluster_no_requirements _ [Opt.r "out", Opt.l "p1", Opt.s "p2"] _
    "cluster" "reports" rfl (by decide) rfl

/-- C1 (code bug): `malheur_cluster` does not cluster. Its entire effect is
to extract the feature array from the input and destroy it again: no
similarity matrix is computed and no partition or dendrogram is produced.
A complete successful run of the cluster task performs exactly the
extract-and-destroy calls besides configuration handling. -/
theorem C1_cluster_task_is_stub :
    (∀ input : String,
      malheur_cluster input =
        (none, [Event.FarrayExtract input, Event.FarrayDestroy])) ∧
    malheur_main
        (⟨fun _ => true, fun _ => true, false, fun _ => 3, fun _ => true⟩ :
          Env)
        [] ["cluster", "reports"] =
      (Outcome.finished EXIT_SUCCESS,
        [Event.AccessInput "reports", Event.ConfigInit,
          Event.ConfigRead CONFIG_FILE, Event.ConfigCheck,
          Event.FarrayExtract "reports", Event.FarrayDestroy,
          Event.ConfigDestroy]) :=
  ⟨fun _ => rfl, by decide⟩

/-- C2 counterexample: when allocation of the 3-by-3 similarity matrix (72
bytes) fails, the fatal report is the fixed string "Could not allocate
similarity matrix", which contains no digit at all, hence not the
attempted allocation size. -/
theorem C2_counterexample_no_size_in_report :
    (malheur_main
        (⟨fun _ => true, fun _ => true, false, fun _ => 3, fun _ => false⟩ :
          Env)
        [Opt.r "out"] ["kernel", "reports"]).1 =
      Outcome.fatalError "Could not allocate similarity matrix" ∧
    ("Could not allocate similarity matrix".data.all
      fun ch => !ch.isDigit) = true :=
  ⟨by decide, by decide⟩

/-- C2 amended: when allocation of the N-by-N similarity matrix fails in
the kernel task, a fatal error is reported with the fixed message "Could
not allocate similarity matrix"; the attempted allocation size is not part
of the report. -/
theorem C2_alloc_failure_fixed_message (env : Env) (g : Globals)
    (input : String)
    (h : env.mallocOk (env.faLen input * env.faLen input * 8) = false) :
    malheur_kernel env g input =
      (some "Could not allocate similarity matrix",
        [Event.FarrayExtract input,
          Event.MallocMatrix (env.faLen input * env.faLen input * 8)]) := by
  simp [malheur_kernel, h]

/-- C2 witness: a 3-vector collection with a failing allocator reaches the
fixed fatal message. -/
theorem C2_alloc_failure_fixed_message_witness :
    malheur_kernel
        (⟨fun _ => true, fun _ => true, false, fun _ => 3, fun _ => false⟩ :
          Env)
        initGlobals "reports" =
      (some "Could not allocate similarity matrix",
        [Event.FarrayExtract "reports", Event.MallocMatrix 72]) :=
  C2_alloc_failure_fixed_message _ initGlobals "reports" rfl

/-- C6: computation over the input collection happens only after every
configuration check has passed: if the trace of a run contains any task
event, initialization succeeded; and when any check of `parse_options` or
`malheur_init` fails, the run ends with that fatal error and its trace
contains no task event. -/
theorem C6_config_errors_before_computation (env : Env) (opts : List Opt)
    (args : List String) :
    (((malheur_main env opts args).2.any isTaskEvent) = true →
      ∃ po, (malheur_init env opts args).1 = ParseResult.ok po) ∧
    (∀ m, (malheur_init env opts args).1 = ParseResult.fatal m →
      (malheur_main env opts args).1 = Outcome.fatalError m ∧
      ((malheur_main env opts args).2.any isTaskEvent) = false) := by
  have hinit := init_events_no_task env opts args
  rcases hi : malheur_init env opts args with ⟨res, evs⟩
  rw [hi] at hinit
  have hany := any_eq_false_of_all_not hinit
  cases res with
  | exited c =>
    simp only [malheur_main, hi]
    constructor
    · intro h
      rw [hany] at h
      cases h
    · intro m hm
      simp at hm
  | fatal m0 =>
    simp only [malheur_main, hi]
    constructor
    · intro h
      rw [hany] at h
      cases h
    · intro m hm
      simp only [ParseResult.fatal.injEq] at hm
      subst hm
      exact ⟨rfl, hany⟩
  | ok po =>
    simp only [malheur_main, hi]
    constructor
    · intro _
      exact ⟨po, rfl⟩
    · intro m hm
      simp at hm

/-- C6 witness: with an unknown task argument the run fails fatally before
any computation: the trace holds no task event. -/
theorem C6_config_errors_before_computation_witness :
    (malheur_main
        (⟨fun _ => true, fun _ => true, false, fun _ => 3, fun _ => true⟩ :
          Env)
        [] ["foo", "reports"]).1 =
      Outcome.fatalError "Unknown analysis task 'foo' for Malheur" ∧
    ((malheur_main
        (⟨fun _ => true, fun _ => true, false, fun _ => 3, fun _ => true⟩ :
          Env)
        [] ["foo", "reports"]).2.any isTaskEvent) = false :=
  (C6_config_errors_before_computation _ [] ["foo", "reports"]).2
    "Unknown analysis task 'foo' for Malheur" (by decide)

/-- C7: in every completed run the feature lookup table is initialized
exactly once if and only if `-t` was given and destroyed exactly once if
and only if `-t` was given; and in every run (completed or not) without
`-t`, no lookup-table call ever appears in the trace. -/
theorem C7_ftable_lifecycle (env : Env) (opts : List Opt)
    (args : List String) :
    ((malheur_main env opts args).1 = Outcome.finished EXIT_SUCCESS →
      ((malheur_main env opts args).2.countP isFtInit =
        if hasT opts then 1 else 0) ∧
      ((malheur_main env opts args).2.countP isFtDestroy =
        if hasT opts then 1 else 0)) ∧
    (hasT opts = false →
      (malheur_main env opts args).2.countP isFtInit = 0 ∧
      (malheur_main env opts args).2.countP isFtDestroy = 0) := by
  obtain ⟨hd0, hi0⟩ := init_ft_counts env opts args
  rcases hi : malheur_init env opts args with ⟨res, evs⟩
  rw [hi] at hd0 hi0
  simp only at hd0 hi0
  cases res with
  | exited c =>
    simp only [malheur_main, hi]
    constructor
    · intro h
      simp at h
    · intro _
      exact ⟨hi0, hd0⟩
  | fatal m0 =>
    simp only [malheur_main, hi]
    constructor
    · intro h
      simp at h
    · intro _
      exact ⟨hi0, hd0⟩
  | ok po =>
    have hlk := init_ok_lookup env opts args po evs hi
    have htf := taskRun_events_no_ft env po
    have hti := countP_zero_of_all_not (p := isFtInit) (by
      simp only [List.all_eq_true, Bool.not_eq_true'] at htf ⊢
      intro e he
      have := htf e he
      cases e <;> simp_all [isFtEvent, isFtInit])
    have htd := countP_zero_of_all_not (p := isFtDestroy) (by
      simp only [List.all_eq_true, Bool.not_eq_true'] at htf ⊢
      intro e he
      have := htf e he
      cases e <;> simp_all [isFtEvent, isFtDestroy])
    obtain ⟨hxi, hxd, -⟩ := exit_ft_counts po.g
    have hi0' : List.countP isFtInit evs =
        if hasT opts = true then 1 else 0 := by
      rw [← hlk]; exact hi0
    have hxd' : List.countP isFtDestroy (malheur_exit po.g) =
        if hasT opts = true then 1 else 0 := by
      rw [← hlk]; exact hxd
    simp only [malheur_main, hi]
    rcases htr : taskRun env po with ⟨tf, tevs⟩
    have hti' : List.countP isFtInit tevs = 0 := by rw [htr] at hti; exact hti
    have htd' : List.countP isFtDestroy tevs = 0 := by
      rw [htr] at htd; exact htd
    cases tf with
    | some m =>
      constructor
      · intro h
        simp at h
      · intro ht
        rw [ht] at hi0'
        show List.countP isFtInit (evs ++ tevs) = 0 ∧
          List.countP isFtDestroy (evs ++ tevs) = 0
        simp [List.countP_append, hti', htd', hd0, hi0']
    | none =>
      constructor
      · intro _
        show List.countP isFtInit (evs ++ tevs ++ malheur_exit po.g) =
            (if hasT opts = true then 1 else 0) ∧
          List.countP isFtDestroy (evs ++ tevs ++ malheur_exit po.g) =
            (if hasT opts = true then 1 else 0)
        simp [List.countP_append, hti', htd', hd0, hi0', hxi, hxd']
      · intro ht
        rw [ht] at hi0' hxd'
        show List.countP isFtInit (evs ++ tevs ++ malheur_exit po.g) = 0 ∧
          List.countP isFtDestroy (evs ++ tevs ++ malheur_exit po.g) = 0
        simp [List.countP_append, hti', htd', hd0, hi0', hxi, hxd']

/-- C7 witness: a completed run with `-t` initializes and destroys the
lookup table exactly once. -/
theorem C7_ftable_lifecycle_witness :
    ((malheur_main
        (⟨fun _ => true, fun _ => true, false, fun _ => 3, fun _ => true⟩ :
          Env)
        [Opt.t] ["cluster", "reports"]).2.countP isFtInit = 1) ∧
    ((malheur_main
        (⟨fun _ => true, fun _ => true, false, fun _ => 3, fun _ => true⟩ :
          Env)
        [Opt.t] ["cluster", "reports"]).2.countP isFtDestroy = 1) := by
  have h :=
    (C7_ftable_lifecycle
      (⟨fun _ => true, fun _ => true, false, fun _ => 3, fun _ => true⟩ :
        Env)
      [Opt.t] ["cluster", "reports"]).1 (by decide)
  simpa using h

/-- C9: `-l` and `-s` store into the same static `proto_file`, so replacing
every `-l file` by `-s file` leaves the behaviour of the whole program
unchanged (they are interchangeable, the last occurrence winning), the
value of `proto_file` after the loop is the argument of the last `-l`/`-s`
option, and in the prototype task the resulting path is passed to
`proto_save_file` (prototype vectors are saved, never loaded). -/
theorem C9_l_and_s_interchangeable :
    (∀ (env : Env) (opts : List Opt) (args : List String),
      malheur_main env (opts.map lToS) args = malheur_main env opts args) ∧
    (∀ (opts : List Opt) (g0 g : Globals),
      getoptLoop opts g0 = LoopResult.done g →
      g.proto_file = lastSL opts g0.proto_file) ∧
    (∀ (g : Globals) (input f : String), g.proto_file = some f →
      Event.ProtoSave f ∈ (malheur_prototype g input).2) := by
  refine ⟨?_, fun opts => getoptLoop_proto_file opts, ?_⟩
  · intro env opts args
    unfold malheur_main
    rw [init_map_lToS]
  · intro g input f hf
    simp [malheur_prototype, hf]

/-- C9 witness: after `-l a -s b` the prototype file is "b". -/
theorem C9_l_and_s_interchangeable_witness :
    ({ initGlobals with proto_file := some "b" } : Globals).proto_file =
      lastSL [Opt.l "a", Opt.s "b"] initGlobals.proto_file :=
  C9_l_and_s_interchangeable.2.1 [Opt.l "a", Opt.s "b"] initGlobals _ rfl

/-- C10: any command line whose option stream contains `-V`, `-h` or an
unrecognized option character makes the program print the version or the
usage screen and exit immediately with `EXIT_SUCCESS`: no task runs, no
input is touched, and the whole trace is that single print. -/
theorem C10_exit_options_succeed (env : Env) (opts : List Opt)
    (args : List String) (hex : opts.any isExitOpt = true) :
    (malheur_main env opts args).1 = Outcome.exited EXIT_SUCCESS ∧
    ((malheur_main env opts args).2 = [Event.PrintVersion] ∨
      (malheur_main env opts args).2 = [Event.PrintUsage]) := by
  rcases getoptLoop_exit opts hex initGlobals with h | h <;>
    simp [malheur_main, malheur_init, parse_options, h]

/-- C10 witness: an unrecognized option exits with EXIT_SUCCESS. -/
theorem C10_exit_options_succeed_witness :
    ([Opt.v, Opt.unknown].any isExitOpt = true) ∧
    (malheur_main
        (⟨fun _ => true, fun _ => true, false, fun _ => 0, fun _ => true⟩ :
          Env)
        [Opt.v, Opt.unknown] []).1 = Outcome.exited EXIT_SUCCESS :=
  ⟨rfl,
    (C10_exit_options_succeed _ [Opt.v, Opt.unknown] [] rfl).1⟩

end Malheur
